import Mathlib

set_option maxHeartbeats 1000000

attribute [local semireducible] Rat.add Rat.sub Rat.mul Rat.inv Rat.ofScientific String.ltb

/-!
Verification development for the aq-viz monitoring inequity analyses.

The analyses in landscan_inequity_real_data.py, analyze_wustl_inequity.py,
landscan_inequity_analysis.py and analyze_population_inequity.py share one
pipeline: build a cKDTree over station coordinates, query the nearest station
for every populated grid cell, convert the degree distance to kilometres with
the factor 111, classify distances into tiers with pd.cut, score samples with
population times distance, and aggregate population-weighted statistics per
state.  The definitions below embed that pipeline over exact rationals;
option values stand for the NaN and error outcomes of the numeric libraries.
-/

/-- Squared Euclidean distance in coordinate (degree) space between a facility
location and a sample point.  The cKDTree built over station coordinates in
landscan_inequity_real_data.py line 71 and analyze_wustl_inequity.py line 79
minimises exactly this quantity when answering a nearest-neighbor query. -/
def sqDist (f p : ℚ × ℚ) : ℚ := (f.1 - p.1) ^ 2 + (f.2 - p.2) ^ 2

/-- Euclidean distance in coordinate (degree) space. -/
noncomputable def euclDist (f p : ℚ × ℚ) : ℝ := Real.sqrt ((sqDist f p : ℚ) : ℝ)

/-- Scan of the facility list keeping the best squared distance and its index;
the running state is the pair of the best squared distance seen so far and the
index at which it was found.  A later facility replaces the incumbent only on
a strictly smaller squared distance, so ties keep the first-found index. -/
def queryAux (p : ℚ × ℚ) : List (ℚ × ℚ) → ℕ → ℚ × ℕ → ℚ × ℕ
  | [], _, best => best
  | f :: fs, i, best =>
      queryAux p fs (i + 1) (if sqDist f p < best.1 then (sqDist f p, i) else best)

/-- Model of tree.query(point, k=1): the squared coordinate distance to the
nearest facility together with the index of that facility, or none when the
facility list is empty (an empty tree answers no nearest-neighbor query). -/
def query (facs : List (ℚ × ℚ)) (p : ℚ × ℚ) : Option (ℚ × ℕ) :=
  match facs with
  | [] => none
  | f :: fs => some (queryAux p fs 1 (sqDist f p, 0))

/-- Physical distance in kilometres to the nearest facility, as computed by
distances_km = distances * 111 in landscan_inequity_real_data.py line 75 and
analyze_wustl_inequity.py line 83: the Euclidean coordinate distance returned
by the tree query, scaled by 111. -/
noncomputable def distanceToStationKm (facs : List (ℚ × ℚ)) (p : ℚ × ℚ) : ℝ :=
  match query facs p with
  | none => 0
  | some (d2, _) => Real.sqrt ((d2 : ℚ) : ℝ) * 111

/-- Test whether a bin edge is strictly below a value; a none edge stands for
np.inf, which is below nothing. -/
def edgeLT (a : Option ℚ) (v : ℚ) : Bool :=
  match a with
  | none => false
  | some a => decide (a < v)

/-- Test whether a bin edge is at or below a value; a none edge stands for
np.inf. -/
def edgeLE (a : Option ℚ) (v : ℚ) : Bool :=
  match a with
  | none => false
  | some a => decide (a ≤ v)

/-- Test whether a value is at or below a bin edge; a none edge stands for
np.inf, which is above everything. -/
def leEdge (v : ℚ) (b : Option ℚ) : Bool :=
  match b with
  | none => true
  | some b => decide (v ≤ b)

/-- Test whether a value is strictly below a bin edge; a none edge stands for
np.inf. -/
def ltEdge (v : ℚ) (b : Option ℚ) : Bool :=
  match b with
  | none => true
  | some b => decide (v < b)

/-- Model of pd.cut over increasing bin edges (none stands for np.inf).  With
right true — the pandas default — a value lands in the interval whose edges
satisfy lo < v and v at or below hi; with right false the interval test is
lo ≤ v and v < hi.  A value in no interval is returned as none, the NaN of
pd.cut. -/
def pdCut (right : Bool) (bins : List (Option ℚ)) (labels : List String) (v : ℚ) :
    Option String :=
  match bins, labels with
  | b0 :: b1 :: bs, l :: ls =>
      if (if right then edgeLT b0 v && leEdge v b1 else edgeLE b0 v && ltEdge v b1) then
        some l
      else
        pdCut right (b1 :: bs) ls v
  | _, _ => none

/-- Distance bin edges of the distance-category classification, distance_bins
in landscan_inequity_real_data.py line 118: 0, 10, 25, 50, 100, 200, np.inf. -/
def distance_bins : List (Option ℚ) :=
  [some 0, some 10, some 25, some 50, some 100, some 200, none]

/-- Distance tier labels, distance_labels in the same files. -/
def distance_labels : List String :=
  ["<10km", "10-25km", "25-50km", "50-100km", "100-200km", ">200km"]

/-- Model of the distance_category column: pd.cut over distance_bins with the
default right true, as in landscan_inequity_real_data.py lines 120-122,
landscan_inequity_analysis.py lines 142-144 and analyze_wustl_inequity.py
line 137. -/
def distance_category (d : ℚ) : Option String :=
  pdCut true distance_bins distance_labels d

/-- Bin edges of the stations-per-million coverage classification, from
analyze_population_inequity.py line 120: 0, 0.5, 1, 1.5, 2, 3, np.inf. -/
def bins_coverage : List (Option ℚ) :=
  [some 0, some (1 / 2), some 1, some (3 / 2), some 2, some 3, none]

/-- Coverage tier labels, labels_coverage in analyze_population_inequity.py. -/
def labels_coverage : List String :=
  ["0-0.5", "0.5-1", "1-1.5", "1.5-2", "2-3", "3+"]

/-- Model of the coverage_bins column: pd.cut over bins_coverage with
right=False, as written in analyze_population_inequity.py line 122. -/
def coverage_bins (v : ℚ) : Option String :=
  pdCut false bins_coverage labels_coverage v

/-- Population sample after distance resolution: the enclosing region from the
spatial join (none when the point fell inside no state polygon), the
population weight of the grid cell, and the distance to the nearest station
in kilometres. -/
structure Sample where
  region : Option String
  population : ℚ
  distanceKm : ℚ
deriving DecidableEq

/-- Underserved predicate from landscan_inequity_real_data.py line 81:
distance strictly above 50 km. -/
def underserved (d : ℚ) : Bool := decide (50 < d)

/-- Poorly-served predicate from landscan_inequity_real_data.py line 82:
distance strictly above 25 km and at most 50 km. -/
def poorly_served (d : ℚ) : Bool := decide (25 < d) && decide (d ≤ 50)

/-- Adequately-served predicate from landscan_inequity_real_data.py line 83:
distance at most 25 km. -/
def adequately_served (d : ℚ) : Bool := decide (d ≤ 25)

/-- Sum of the population weights of a list of samples. -/
def popSum (ss : List Sample) : ℚ := ss.foldr (fun s a => s.population + a) 0

/-- Sum of population times distance over a list of samples, the numerator of
np.average with population weights. -/
def weightedDistSum (ss : List Sample) : ℚ :=
  ss.foldr (fun s a => s.population * s.distanceKm + a) 0

/-- Samples of one region, the group produced for that region by
groupby(stname) after the spatial join. -/
def regionSamples (ss : List Sample) (r : String) : List Sample :=
  ss.filter (fun s => s.region == some r)

/-- Total population mapped to a region. -/
def totalPopulation (ss : List Sample) (r : String) : ℚ := popSum (regionSamples ss r)

/-- Population of the samples of a region that fall in a given service tier,
as in the per-tier sums of landscan_inequity_real_data.py lines 87-89 and the
underserved aggregation at line 208. -/
def tierPopulation (tier : ℚ → Bool) (ss : List Sample) (r : String) : ℚ :=
  popSum ((regionSamples ss r).filter (fun s => tier s.distanceKm))

/-- Model of np.average(x, weights=w): none models the ZeroDivisionError that
numpy raises when the weights sum to zero, otherwise the weighted mean. -/
def npAverage (g : List Sample) : Option ℚ :=
  if popSum g = 0 then none else some (weightedDistSum g / popSum g)

/-- Reported population-weighted mean distance of a region, after the whole
aggregation of landscan_inequity_real_data.py lines 205-221: groupby(stname)
computes np.average only for regions holding at least one sample; a region
with no samples is absent from state_stats, joins as NaN in the left merge at
line 216, and is replaced by 0 by the fillna at line 221.  The outer none
models the run aborting inside np.average. -/
def reportedWeightedAvgDistance (ss : List Sample) (r : String) : Option ℚ :=
  if (regionSamples ss r).isEmpty then some 0 else npAverage (regionSamples ss r)

/-- Vulnerability score of a sample, grid_gdf vulnerability_score in
landscan_inequity_real_data.py line 163 and landscan_inequity_analysis.py
line 192: population times distance in kilometres. -/
def vulnerability_score (s : Sample) : ℚ := s.population * s.distanceKm

/-- Least element of a list of rationals, 0 for the empty list; models
poverty.min() over the poverty column. -/
def listMin : List ℚ → ℚ
  | [] => 0
  | [x] => x
  | x :: y :: xs => min x (listMin (y :: xs))

/-- Greatest element of a list of rationals, 0 for the empty list; models
poverty.max() over the poverty column. -/
def listMax : List ℚ → ℚ
  | [] => 0
  | [x] => x
  | x :: y :: xs => max x (listMax (y :: xs))

/-- Model of poverty_normalized from analyze_wustl_inequity.py line 106: the
value (p - min) / (max - min) over the full poverty column ps.  When max and
min coincide numpy evaluates 0 / 0, which is NaN (the RuntimeWarning is
suppressed by the filterwarnings call at the top of the script); none models
that NaN.  No exception is raised in either case. -/
def poverty_normalized (ps : List ℚ) (p : ℚ) : Option ℚ :=
  if listMax ps - listMin ps = 0 then none
  else some ((p - listMin ps) / (listMax ps - listMin ps))

/-- Error vocabulary of the claimed spatial-index build failure.  Nothing in
the repository defines or raises an error of this name; the type exists only
so that theorems can state whether the build ever produces it. -/
inductive SpatialIndexError
  | emptyFacilitySet
deriving DecidableEq

/-- Model of the inline spatial-index build tree = cKDTree(station_coords) at
landscan_inequity_real_data.py line 71 and analyze_wustl_inequity.py line 79:
the scripts index the loaded facility coordinate sequence as it is, with no
emptiness check of their own and no named error class anywhere in the
repository.  The Except wrapper carries the error vocabulary of the claim
purely so the statements below can say that no branch of the build produces
such an error — the definition is a single unconditional ok. -/
def cKDTreeBuild (facs : List (ℚ × ℚ)) : Except SpatialIndexError (List (ℚ × ℚ)) :=
  Except.ok facs

/-- Stable insertion of a row into a list already sorted by the boolean
relation le: the row is placed before the first element it relates to. -/
def insertBy {α : Type} (le : α → α → Bool) (x : α) : List α → List α
  | [] => [x]
  | y :: ys => if le x y then x :: y :: ys else y :: insertBy le x ys

/-- Stable insertion sort by the boolean relation le. -/
def sortListBy {α : Type} (le : α → α → Bool) : List α → List α
  | [] => []
  | x :: xs => insertBy le x (sortListBy le xs)

/-- Descending comparison on a named statistic: row a may precede row b when
the statistic of b is at most the statistic of a.  Equal statistics leave the
rows in their original relative order, which is the keep=first tie behavior
of pandas nlargest. -/
def descBy {α : Type} (key : α → ℚ) (a b : α) : Bool := decide (key b ≤ key a)

/-- Model of DataFrame.nlargest(k, column) with the default keep=first, as in
analyze_population_inequity.py lines 105-107 and
landscan_inequity_analysis.py line 316: the k rows of largest statistic,
sorted descending, ties kept in input row order. -/
def nlargestBy {α : Type} (key : α → ℚ) (k : ℕ) (rows : List α) : List α :=
  (sortListBy (descBy key) rows).take k

/-- Modelled from the spec: the ranking described in section 4.5, sorting on
the named statistic descending with ties broken by region identity in
lexicographic order.  A row is a pair of region name and statistic value. -/
def specLexRankLE (a b : String × ℚ) : Bool :=
  decide (b.2 < a.2) || (decide (a.2 = b.2) && decide (a.1 ≤ b.1))

/-- Modelled from the spec: top-k ranking with lexicographic identity
tie-break, the behavior claimed for the ranking outputs. -/
def specLexRanking (k : ℕ) (rows : List (String × ℚ)) : List (String × ℚ) :=
  (sortListBy specLexRankLE rows).take k

lemma listMin_le_of_mem : ∀ {ps : List ℚ} {p : ℚ}, p ∈ ps → listMin ps ≤ p := by
  intro ps
  induction ps with
  | nil => intro p hp; cases hp
  | cons x xs ih =>
    intro p hp
    cases xs with
    | nil =>
      have : p = x := by simpa using hp
      simp [listMin, this]
    | cons y ys =>
      have e : listMin (x :: y :: ys) = min x (listMin (y :: ys)) := rfl
      rcases List.mem_cons.mp hp with h | h
      · rw [h, e]; exact min_le_left _ _
      · rw [e]; exact le_trans (min_le_right _ _) (ih h)

lemma le_listMax_of_mem : ∀ {ps : List ℚ} {p : ℚ}, p ∈ ps → p ≤ listMax ps := by
  intro ps
  induction ps with
  | nil => intro p hp; cases hp
  | cons x xs ih =>
    intro p hp
    cases xs with
    | nil =>
      have : p = x := by simpa using hp
      simp [listMax, this]
    | cons y ys =>
      have e : listMax (x :: y :: ys) = max x (listMax (y :: ys)) := rfl
      rcases List.mem_cons.mp hp with h | h
      · rw [h, e]; exact le_max_left _ _
      · rw [e]; exact le_trans (ih h) (le_max_right _ _)

lemma popSum_cons (s : Sample) (l : List Sample) :
    popSum (s :: l) = s.population + popSum l := rfl

lemma popSum_nonneg (g : List Sample) (h : ∀ s ∈ g, 0 < s.population) : 0 ≤ popSum g := by
  induction g with
  | nil => simp [popSum]
  | cons s t ih =>
    rw [popSum_cons]
    have h1 : 0 < s.population := h s (List.mem_cons_self s t)
    have h2 : 0 ≤ popSum t := ih fun x hx => h x (List.mem_cons_of_mem s hx)
    linarith

lemma popSum_pos (g : List Sample) (h : ∀ s ∈ g, 0 < s.population) (hne : g ≠ []) :
    0 < popSum g := by
  cases g with
  | nil => exact absurd rfl hne
  | cons s t =>
    rw [popSum_cons]
    have h1 : 0 < s.population := h s (List.mem_cons_self s t)
    have h2 : 0 ≤ popSum t := popSum_nonneg t fun x hx => h x (List.mem_cons_of_mem s hx)
    linarith

lemma tier_filter_sum (g : List Sample) :
    popSum (g.filter fun s => adequately_served s.distanceKm) +
      popSum (g.filter fun s => poorly_served s.distanceKm) +
      popSum (g.filter fun s => underserved s.distanceKm) = popSum g := by
  induction g with
  | nil => simp [popSum]
  | cons s t ih =>
    rcases le_or_lt s.distanceKm 25 with h1 | h1
    · have e1 : adequately_served s.distanceKm = true := by
        simp [adequately_served, h1]
      have e2 : poorly_served s.distanceKm = false := by
        simp [poorly_served]
        intro hc
        linarith
      have e3 : underserved s.distanceKm = false := by
        simp [underserved]
        linarith
      simp only [List.filter_cons, e1, e2, e3, if_true, if_false, cond_true, cond_false,
        popSum_cons, ite_true, ite_false, Bool.false_eq_true]
      linarith [ih]
    · rcases le_or_lt s.distanceKm 50 with h2 | h2
      · have e1 : adequately_served s.distanceKm = false := by
          simp [adequately_served]
          linarith
        have e2 : poorly_served s.distanceKm = true := by
          simp [poorly_served]
          exact ⟨h1, h2⟩
        have e3 : underserved s.distanceKm = false := by
          simp [underserved]
          linarith
        simp only [List.filter_cons, e1, e2, e3, if_true, if_false, cond_true, cond_false,
          popSum_cons, ite_true, ite_false, Bool.false_eq_true]
        linarith [ih]
      · have e1 : adequately_served s.distanceKm = false := by
          simp [adequately_served]
          linarith
        have e2 : poorly_served s.distanceKm = false := by
          simp [poorly_served]
          intro hc
          linarith
        have e3 : underserved s.distanceKm = true := by
          simp [underserved]
          linarith
        simp only [List.filter_cons, e1, e2, e3, if_true, if_false, cond_true, cond_false,
          popSum_cons, ite_true, ite_false, Bool.false_eq_true]
        linarith [ih]

/-- Claim C2 counterexample: the distance-category classifier uses the pandas
default right=True, so the distance exactly equal to the interior breakpoint
25 falls into the tier that ENDS at 25, not the tier that starts there as the
claim states. -/
theorem distance_category_breakpoint_goes_to_ending_tier :
    distance_category 25 = some "10-25km" ∧ distance_category 25 ≠ some "25-50km" := by
  decide

/-- Claim C2 (amended): the distance-category classifications are built with
the pandas default right=True, so a distance exactly equal to an interior
breakpoint falls into the tier ending at that breakpoint; only the
coverage_bins classification of analyze_population_inequity.py passes
right=False, and there a value equal to a breakpoint falls into the tier
starting at it.  Stated for every interior breakpoint of both configured
classifiers. -/
theorem breakpoint_tier_assignment :
    distance_category 10 = some "<10km" ∧ distance_category 25 = some "10-25km" ∧
    distance_category 50 = some "25-50km" ∧ distance_category 100 = some "50-100km" ∧
    distance_category 200 = some "100-200km" ∧
    coverage_bins (1 / 2) = some "0.5-1" ∧ coverage_bins 1 = some "1-1.5" ∧
    coverage_bins (3 / 2) = some "1.5-2" ∧ coverage_bins 2 = some "2-3" ∧
    coverage_bins 3 = some "3+" := by
  decide

/-- Claim C3 counterexample: a distance of exactly 0 is assigned no tier at
all by the distance-category classifier — pd.cut with the default right=True
leaves the left edge of the first interval out, so 0 is returned as NaN,
contradicting both totality over the nonnegative reals and the assignment of
0 to the lowest tier. -/
theorem distance_category_zero_is_unclassified :
    distance_category 0 = none ∧ distance_category 0 ≠ some "<10km" := by
  decide

/-- Claim C3 (amended): every strictly positive distance is assigned exactly
one tier by the distance-category classifier — the classification is total
over the positive reals — while a distance of exactly 0 is left unclassified
(NaN). -/
theorem distance_category_total_on_positive (d : ℚ) (h : 0 < d) :
    (distance_category d).isSome = true := by
  rcases le_or_lt d 10 with h1 | h1
  · simp [distance_category, pdCut, distance_bins, distance_labels, edgeLT, leEdge, h, h1]
  · rcases le_or_lt d 25 with h2 | h2
    · simp [distance_category, pdCut, distance_bins, distance_labels, edgeLT, leEdge, h,
        not_le.mpr h1, h1, h2]
    · rcases le_or_lt d 50 with h3 | h3
      · simp [distance_category, pdCut, distance_bins, distance_labels, edgeLT, leEdge, h,
          not_le.mpr h1, h1, not_le.mpr h2, h2, h3, lt_trans (by norm_num : (0:ℚ) < 10) h1]
      · rcases le_or_lt d 100 with h4 | h4
        · simp [distance_category, pdCut, distance_bins, distance_labels, edgeLT, leEdge, h,
            not_le.mpr h1, h1, not_le.mpr h2, h2, not_le.mpr h3, h3, h4]
        · rcases le_or_lt d 200 with h5 | h5
          · simp [distance_category, pdCut, distance_bins, distance_labels, edgeLT, leEdge, h,
              not_le.mpr h1, h1, not_le.mpr h2, h2, not_le.mpr h3, h3, not_le.mpr h4, h4, h5]
          · simp [distance_category, pdCut, distance_bins, distance_labels, edgeLT, leEdge, h,
              not_le.mpr h1, h1, not_le.mpr h2, h2, not_le.mpr h3, h3, not_le.mpr h4, h4,
              not_le.mpr h5, h5]

/-- Witness for the amended claim C3 at the concrete distance 5. -/
theorem distance_category_total_on_positive_witness :
    (distance_category 5).isSome = true :=
  distance_category_total_on_positive 5 (by norm_num)

/-- Claim C5: the vulnerability score of a sample is its population weight
times its distance in kilometres, hence zero whenever the weight is zero and
zero whenever the distance is zero. -/
theorem vulnerability_score_is_weight_times_distance :
    (∀ s : Sample, vulnerability_score s = s.population * s.distanceKm) ∧
    (∀ (r : Option String) (d : ℚ), vulnerability_score ⟨r, 0, d⟩ = 0) ∧
    (∀ (r : Option String) (w : ℚ), vulnerability_score ⟨r, w, 0⟩ = 0) := by
  refine ⟨fun s => rfl, fun r d => ?_, fun r w => ?_⟩ <;> simp [vulnerability_score]

/-- Claim C6 counterexample: when every poverty value is equal the
normalization evaluates 0 / 0, which numpy returns as NaN (modelled none),
not as the claimed defined value 0. -/
theorem poverty_normalized_all_equal_is_nan :
    poverty_normalized [3, 3] 3 = none ∧ poverty_normalized [3, 3] 3 ≠ some 0 := by
  decide

/-- Claim C6 (amended): the poverty normalization min-max scales to the unit
interval whenever at least two distinct poverty values occur in the sample
set; when all values are equal the result is NaN (numpy 0 / 0 with warnings
suppressed), not 0, though no exception is raised. -/
theorem poverty_normalized_in_unit_interval (ps : List ℚ) (p : ℚ) (hp : p ∈ ps)
    (h : listMin ps < listMax ps) :
    ∃ v, poverty_normalized ps p = some v ∧ 0 ≤ v ∧ v ≤ 1 := by
  have hD : listMax ps - listMin ps ≠ 0 := sub_ne_zero.mpr (ne_of_gt h)
  refine ⟨(p - listMin ps) / (listMax ps - listMin ps), ?_, ?_, ?_⟩
  · simp [poverty_normalized, hD]
  · exact div_nonneg (sub_nonneg.mpr (listMin_le_of_mem hp)) (le_of_lt (sub_pos.mpr h))
  · rw [div_le_one (sub_pos.mpr h)]
    exact sub_le_sub_right (le_listMax_of_mem hp) _

/-- Witness for the amended claim C6 on the poverty column with the two
distinct values 0 and 2. -/
theorem poverty_normalized_in_unit_interval_witness :
    ∃ v, poverty_normalized [0, 2] 2 = some v ∧ 0 ≤ v ∧ v ≤ 1 :=
  poverty_normalized_in_unit_interval [0, 2] 2 (by decide) (by decide)

/-- Claim C8: for every region, the adequately-served, poorly-served and
underserved population buckets sum exactly to the total population of the
region — every sample weight is counted in exactly one tier bucket. -/
theorem tier_populations_sum_to_total (ss : List Sample) (r : String) :
    tierPopulation adequately_served ss r + tierPopulation poorly_served ss r +
      tierPopulation underserved ss r = totalPopulation ss r := by
  simpa [tierPopulation, totalPopulation] using tier_filter_sum (regionSamples ss r)

/-- Claim C10: the service-category predicates use strict inequality above
each threshold, so a distance of exactly 50 km is poorly served rather than
underserved and a distance of exactly 25 km is adequately served rather than
poorly served. -/
theorem service_tier_threshold_boundaries :
    underserved 50 = false ∧ poorly_served 50 = true ∧ adequately_served 50 = false ∧
    adequately_served 25 = true ∧ poorly_served 25 = false ∧ underserved 25 = false ∧
    (∀ d : ℚ, underserved d = true ↔ 50 < d) ∧
    (∀ d : ℚ, poorly_served d = true ↔ 25 < d ∧ d ≤ 50) ∧
    (∀ d : ℚ, adequately_served d = true ↔ d ≤ 25) := by
  refine ⟨by decide, by decide, by decide, by decide, by decide, by decide,
    fun d => ?_, fun d => ?_, fun d => ?_⟩ <;>
    simp [underserved, poorly_served, adequately_served]

/-- Claim C4: a region whose mapped total population is zero is reported with
a population-weighted mean distance of exactly zero, and the aggregation
raises no division error: under the upstream guarantee that every sample has
strictly positive population, a zero-population region is a region with no
samples, which is absent from the groupby result and filled with 0 after the
left merge; np.average is only ever evaluated on groups of positive total
weight. -/
theorem zero_population_region_reports_zero (ss : List Sample) (r : String)
    (hw : ∀ s ∈ ss, 0 < s.population) :
    (totalPopulation ss r = 0 → reportedWeightedAvgDistance ss r = some 0) ∧
    reportedWeightedAvgDistance ss r ≠ none := by
  have hg : ∀ s ∈ regionSamples ss r, 0 < s.population := fun s hs =>
    hw s (List.mem_of_mem_filter hs)
  by_cases he : (regionSamples ss r).isEmpty
  · exact ⟨fun _ => by simp [reportedWeightedAvgDistance, he],
      by simp [reportedWeightedAvgDistance, he]⟩
  · have hne : regionSamples ss r ≠ [] := by
      cases hx : regionSamples ss r with
      | nil => rw [hx] at he; simp at he
      | cons a l => simp
    have hpos : 0 < popSum (regionSamples ss r) := popSum_pos _ hg hne
    constructor
    · intro h0
      rw [totalPopulation] at h0
      linarith
    · simp [reportedWeightedAvgDistance, he, npAverage, ne_of_gt hpos]

/-- Witness for claim C4: one sample of positive weight mapped to region X
leaves region Y with zero population, which is reported as mean distance 0. -/
theorem zero_population_region_reports_zero_witness :
    reportedWeightedAvgDistance [⟨some "X", 1, 5⟩] "Y" = some 0 :=
  (zero_population_region_reports_zero [⟨some "X", 1, 5⟩] "Y" (by decide)).1 (by decide)

/-- Claim C7 counterexample: the inline build indexes the empty facility
sequence without failing — it returns the tree over zero points and does not
produce the EmptyFacilitySet error, because the scripts perform no emptiness
check and no such error class exists in the repository.  A query against the
empty set does go unanswered. -/
theorem build_on_empty_does_not_raise :
    cKDTreeBuild [] = Except.ok [] ∧
    cKDTreeBuild ([] : List (ℚ × ℚ)) ≠ Except.error SpatialIndexError.emptyFacilitySet ∧
    query [] ((0 : ℚ), (0 : ℚ)) = none := by
  refine ⟨rfl, ?_, rfl⟩
  intro h
  cases h

/-- Claim C7 (amended): the spatial-index build performs no emptiness check
and never fails with an EmptyFacilitySet error — it indexes whatever facility
sequence it is given, the empty one included; a nearest-neighbor query over
the empty facility set yields no answer, and over any non-empty facility set
every query is answered. -/
theorem build_indexes_any_sequence (facs : List (ℚ × ℚ)) :
    (∀ e : SpatialIndexError, cKDTreeBuild facs ≠ Except.error e) ∧
    (∀ p : ℚ × ℚ, query [] p = none) ∧
    (facs ≠ [] → ∀ p : ℚ × ℚ, (query facs p).isSome = true) := by
  refine ⟨?_, fun p => rfl, ?_⟩
  · intro e h
    simp [cKDTreeBuild] at h
  · intro hne p
    cases facs with
    | nil => exact absurd rfl hne
    | cons f fs => simp [query]

/-- Witness for the amended claim C7: the index built over one facility
answers a query. -/
theorem build_indexes_any_sequence_witness :
    (query [((0 : ℚ), (0 : ℚ))] (1, 1)).isSome = true :=
  (build_indexes_any_sequence [((0 : ℚ), (0 : ℚ))]).2.2 (by decide) (1, 1)

lemma mem_insertBy {α : Type} (le : α → α → Bool) (x : α) :
    ∀ (l : List α) (z : α), z ∈ insertBy le x l → z = x ∨ z ∈ l := by
  intro l
  induction l with
  | nil =>
    intro z hz
    simp [insertBy] at hz
    exact Or.inl hz
  | cons y ys ih =>
    intro z hz
    by_cases hle : le x y
    · simp [insertBy, hle] at hz
      rcases hz with h | h | h
      · exact Or.inl h
      · exact Or.inr (by simp [h])
      · exact Or.inr (by simp [h])
    · simp [insertBy, hle] at hz
      rcases hz with h | h
      · exact Or.inr (by simp [h])
      · rcases ih z h with h2 | h2
        · exact Or.inl h2
        · exact Or.inr (by simp [h2])

lemma pairwise_insertBy {α : Type} (key : α → ℚ) (x : α) :
    ∀ l, List.Pairwise (fun a b => key b ≤ key a) l →
      List.Pairwise (fun a b => key b ≤ key a) (insertBy (descBy key) x l) := by
  intro l
  induction l with
  | nil => intro _; simp [insertBy]
  | cons y ys ih =>
    intro h
    rcases List.pairwise_cons.mp h with ⟨hy, hys⟩
    by_cases hle : descBy key x y = true
    · have hxy : key y ≤ key x := by simpa [descBy] using hle
      simp only [insertBy, hle, ite_true]
      refine List.pairwise_cons.mpr ⟨?_, h⟩
      intro z hz
      rcases List.mem_cons.mp hz with h1 | h1
      · rw [h1]; exact hxy
      · exact le_trans (hy z h1) hxy
    · have hyx : key x ≤ key y := le_of_not_le (by simpa [descBy] using hle)
      have hle' : descBy key x y = false := by simpa using hle
      simp only [insertBy, hle', ite_false, Bool.false_eq_true]
      refine List.pairwise_cons.mpr ⟨?_, ih hys⟩
      intro z hz
      rcases mem_insertBy (descBy key) x ys z hz with h1 | h1
      · rw [h1]; exact hyx
      · exact hy z h1

lemma sortListBy_pairwise {α : Type} (key : α → ℚ) (rows : List α) :
    List.Pairwise (fun a b => key b ≤ key a) (sortListBy (descBy key) rows) := by
  induction rows with
  | nil => simp [sortListBy]
  | cons x xs ih => exact pairwise_insertBy key x _ ih

lemma filter_insertBy {α : Type} (key : α → ℚ) (c : ℚ) (x : α) :
    ∀ l : List α,
      (insertBy (descBy key) x l).filter (fun r => decide (key r = c)) =
        if key x = c then x :: l.filter (fun r => decide (key r = c))
        else l.filter (fun r => decide (key r = c)) := by
  intro l
  induction l with
  | nil => by_cases hx : key x = c <;> simp [insertBy, hx]
  | cons y ys ih =>
    by_cases hle : descBy key x y = true
    · by_cases hx : key x = c <;> simp [insertBy, hle, hx, List.filter_cons]
    · have hxy : key x < key y := lt_of_not_le (by simpa [descBy] using hle)
      have hle' : descBy key x y = false := by simpa using hle
      by_cases hx : key x = c
      · have hy : ¬ key y = c := by rw [← hx]; exact (ne_of_gt hxy)
        simp [insertBy, hle', List.filter_cons, hy, hx, ih]
      · simp [insertBy, hle', List.filter_cons, hx, ih]

lemma sortListBy_filter_stable {α : Type} (key : α → ℚ) (c : ℚ) :
    ∀ rows : List α,
      (sortListBy (descBy key) rows).filter (fun r => decide (key r = c)) =
        rows.filter (fun r => decide (key r = c)) := by
  intro rows
  induction rows with
  | nil => simp [sortListBy]
  | cons x xs ih =>
    rw [sortListBy, filter_insertBy key c x (sortListBy (descBy key) xs)]
    by_cases hx : key x = c <;> simp [List.filter_cons, hx, ih]

/-- Claim C9 counterexample: with two regions of equal statistic presented in
the order B then A, the top-1 ranking keeps B — ties are kept in input row
order by nlargest with its default keep=first — whereas the claimed
lexicographic identity tie-break would have to return A. -/
theorem ranking_ties_not_broken_lexicographically :
    nlargestBy (fun r : String × ℚ => r.2) 1 [("B", 1), ("A", 1)] = [("B", 1)] ∧
    specLexRanking 1 [("B", 1), ("A", 1)] = [("A", 1)] ∧
    nlargestBy (fun r : String × ℚ => r.2) 1 [("B", 1), ("A", 1)] ≠
      specLexRanking 1 [("B", 1), ("A", 1)] := by
  decide

/-- Claim C9 (amended): ranking outputs are sorted on the named statistic in
descending order, and ties between regions of equal statistic are broken by
original input row position — the keep=first behavior of nlargest — which is
deterministic over identical input, but is not a lexicographic order on
region identity.  The first conjunct is the descending sortedness of the
top-k output; the second states that the rows carrying any fixed statistic
value appear in the sorted output exactly in their input order. -/
theorem nlargest_sorted_ties_in_input_order {α : Type} (key : α → ℚ) (k : ℕ)
    (rows : List α) :
    List.Pairwise (fun a b => key b ≤ key a) (nlargestBy key k rows) ∧
    ∀ c : ℚ, (sortListBy (descBy key) rows).filter (fun r => decide (key r = c)) =
      rows.filter (fun r => decide (key r = c)) := by
  constructor
  · exact List.Pairwise.sublist (List.take_sublist k _) (sortListBy_pairwise key rows)
  · exact fun c => sortListBy_filter_stable key c rows

lemma queryAux_spec (p : ℚ × ℚ) :
    ∀ (fs : List (ℚ × ℚ)) (i : ℕ) (best : ℚ × ℕ),
      (queryAux p fs i best = best ∨
        ∃ j, ∃ hj : j < fs.length,
          queryAux p fs i best = (sqDist (fs.get ⟨j, hj⟩) p, i + j)) ∧
      (queryAux p fs i best).1 ≤ best.1 ∧
      ∀ f ∈ fs, (queryAux p fs i best).1 ≤ sqDist f p := by
  intro fs
  induction fs with
  | nil =>
    intro i best
    refine ⟨Or.inl rfl, le_refl _, ?_⟩
    intro f hf
    cases hf
  | cons f fs ih =>
    intro i best
    have e : queryAux p (f :: fs) i best =
        queryAux p fs (i + 1) (if sqDist f p < best.1 then (sqDist f p, i) else best) := rfl
    set b : ℚ × ℕ := if sqDist f p < best.1 then (sqDist f p, i) else best with hb
    obtain ⟨hA, hB, hC⟩ := ih (i + 1) b
    have hb1 : b.1 ≤ best.1 := by
      by_cases hlt : sqDist f p < best.1
      · rw [hb, if_pos hlt]
        exact le_of_lt hlt
      · rw [hb, if_neg hlt]
    have hbf : b.1 ≤ sqDist f p := by
      by_cases hlt : sqDist f p < best.1
      · rw [hb, if_pos hlt]
      · rw [hb, if_neg hlt]
        exact le_of_not_lt hlt
    rw [e]
    refine ⟨?_, le_trans hB hb1, ?_⟩
    · rcases hA with h | ⟨j, hj, hEq⟩
      · by_cases hlt : sqDist f p < best.1
        · right
          refine ⟨0, by simp, ?_⟩
          rw [h, hb, if_pos hlt]
          simp
        · left
          rw [h, hb, if_neg hlt]
      · right
        refine ⟨j + 1, by simpa using Nat.succ_lt_succ hj, ?_⟩
        rw [hEq]
        have h2 : i + 1 + j = i + (j + 1) := by omega
        rw [h2]
        rfl
    · intro g hg
      rcases List.mem_cons.mp hg with h1 | h1
      · rw [h1]
        exact le_trans hB hbf
      · exact hC g h1

/-- Claim C1: for a non-empty facility set, the computed distance in
kilometres to the nearest station is the minimum over all facilities of the
Euclidean coordinate-space distance scaled by exactly 111, and the facility
index returned by the query attains that minimum. -/
theorem nearest_distance_is_min (facs : List (ℚ × ℚ)) (p : ℚ × ℚ) (h : facs ≠ []) :
    ∃ i, ∃ hi : i < facs.length, ∃ d2 : ℚ,
      query facs p = some (d2, i) ∧
      d2 = sqDist (facs.get ⟨i, hi⟩) p ∧
      distanceToStationKm facs p = euclDist (facs.get ⟨i, hi⟩) p * 111 ∧
      ∀ f ∈ facs, distanceToStationKm facs p ≤ euclDist f p * 111 := by
  cases facs with
  | nil => exact absurd rfl h
  | cons f fs =>
    obtain ⟨hA, hB, hC⟩ := queryAux_spec p fs 1 (sqDist f p, 0)
    have hAttain : ∃ i, ∃ hi : i < (f :: fs).length,
        queryAux p fs 1 (sqDist f p, 0) = (sqDist ((f :: fs).get ⟨i, hi⟩) p, i) := by
      rcases hA with h1 | ⟨j, hj, h1⟩
      · exact ⟨0, by simp, h1⟩
      · refine ⟨j + 1, by simpa using Nat.succ_lt_succ hj, ?_⟩
        rw [h1]
        have h2 : 1 + j = j + 1 := by omega
        rw [h2]
        rfl
    obtain ⟨i, hi, hri⟩ := hAttain
    have hq2 : query (f :: fs) p = some (sqDist ((f :: fs).get ⟨i, hi⟩) p, i) := by
      rw [query, hri]
    have hd : distanceToStationKm (f :: fs) p =
        Real.sqrt ((sqDist ((f :: fs).get ⟨i, hi⟩) p : ℚ) : ℝ) * 111 := by
      simp only [distanceToStationKm, hq2]
    have hLB : ∀ g ∈ f :: fs, sqDist ((f :: fs).get ⟨i, hi⟩) p ≤ sqDist g p := by
      intro g hg
      have hgle : (queryAux p fs 1 (sqDist f p, 0)).1 ≤ sqDist g p := by
        rcases List.mem_cons.mp hg with h1 | h1
        · rw [h1]
          exact hB
        · exact hC g h1
      rw [hri] at hgle
      exact hgle
    refine ⟨i, hi, sqDist ((f :: fs).get ⟨i, hi⟩) p, hq2, rfl, hd.trans (by rw [euclDist]), ?_⟩
    intro g hg
    have h2 : Real.sqrt ((sqDist ((f :: fs).get ⟨i, hi⟩) p : ℚ) : ℝ) ≤
        Real.sqrt ((sqDist g p : ℚ) : ℝ) :=
      Real.sqrt_le_sqrt (by exact_mod_cast hLB g hg)
    rw [hd, euclDist]
    exact mul_le_mul_of_nonneg_right h2 (by norm_num)

/-- Witness for claim C1 on two facilities at the origin and at one degree
east, queried from the origin. -/
theorem nearest_distance_is_min_witness :
    ∃ i, ∃ hi : i < ([((0 : ℚ), (0 : ℚ)), (1, 0)] : List (ℚ × ℚ)).length, ∃ d2 : ℚ,
      query [((0 : ℚ), (0 : ℚ)), (1, 0)] (0, 0) = some (d2, i) ∧
      d2 = sqDist (([((0 : ℚ), (0 : ℚ)), (1, 0)] : List (ℚ × ℚ)).get ⟨i, hi⟩) (0, 0) ∧
      distanceToStationKm [((0 : ℚ), (0 : ℚ)), (1, 0)] (0, 0) =
        euclDist (([((0 : ℚ), (0 : ℚ)), (1, 0)] : List (ℚ × ℚ)).get ⟨i, hi⟩) (0, 0) * 111 ∧
      ∀ f ∈ ([((0 : ℚ), (0 : ℚ)), (1, 0)] : List (ℚ × ℚ)),
        distanceToStationKm [((0 : ℚ), (0 : ℚ)), (1, 0)] (0, 0) ≤ euclDist f (0, 0) * 111 :=
  nearest_distance_is_min [((0 : ℚ), (0 : ℚ)), (1, 0)] (0, 0) (by decide)
